import Mathlib

/-!
Verification of the gli-turf-buffer wrapper (src/dist/js/index.js).

The module is a thin adapter around an external geometry library: it
reprojects GeoJSON coordinates into a local planar frame, delegates the
buffering to JSTS, and reprojects the result.  The wrapper's own code
(option defaulting and validation, dispatch over GeoJSON kinds, the
recursive coordinate projection, the NaN-based empty-result filter and
property handling) is embedded below statement by statement.  The external
collaborators (turf center, the d3 azimuthal-equidistant projection, the
unit conversion and the JSTS buffer operation) are opaque dependencies and
appear as components of an `Externals` record.

The JS `Array.prototype.map` calls of the source are rendered as mutual
`...List` helpers (definitionally `List.map`) so that the nested recursion
is structural.
-/

namespace GliTurfBuffer

/-- A JavaScript number: a finite (rational-modelled) value or NaN. -/
inductive JSNum where
  | num (q : ℚ) : JSNum
  | nan : JSNum
deriving DecidableEq

/-- JS truthiness of a number: 0 and NaN are falsy. -/
def JSNum.truthy : JSNum → Bool
  | .num q => q != 0
  | .nan => false

/-- The JS global isNaN on a number value. -/
def JSNum.isNaN : JSNum → Bool
  | .num _ => false
  | .nan => true

/-- JS comparison a <= b on numbers; any comparison with NaN is false. -/
def JSNum.jsLe : JSNum → JSNum → Bool
  | .num a, .num b => a ≤ b
  | _, _ => false

/-- JS unary minus on numbers. -/
def jsNeg : JSNum → JSNum
  | .num q => .num (-q)
  | .nan => .nan

/-- A JavaScript primitive value, as can appear in an options field. -/
inductive JSVal where
  | vundefined : JSVal
  | vnull : JSVal
  | vbool (b : Bool) : JSVal
  | vnum (n : JSNum) : JSVal
  | vstr (s : String) : JSVal
deriving DecidableEq

/-- JS truthiness of a value: undefined, null, false, 0, NaN and "" are falsy. -/
def JSVal.truthy : JSVal → Bool
  | .vundefined => false
  | .vnull => false
  | .vbool b => b
  | .vnum n => n.truthy
  | .vstr s => s != ""

/-- typeof v === "number". -/
def JSVal.isNumber : JSVal → Bool
  | .vnum _ => true
  | _ => false

/-- The numeric payload of a value known to be a number. -/
def JSVal.asNum : JSVal → JSNum
  | .vnum n => n
  | _ => .nan

/-- The JS expression a || b (used for option defaulting throughout lines 41-48). -/
def jsOr (a b : JSVal) : JSVal :=
  if a.truthy then a else b

/-- A coordinate pair, the leaf of every GeoJSON coordinates array. -/
abbrev Pair := JSNum × JSNum

/-- A GeoJSON coordinates array of arbitrary nesting depth.  A `pair` is an
array holding two numbers (so its first element is not an object); a `node`
is a nonempty array of nested arrays (its first element is an array), which
is exactly the shape distinguished by the source's
`typeof coords[0] !== "object"` and `Array.isArray(coords[0])` tests. -/
inductive Coords where
  | pair (x y : JSNum) : Coords
  | node (head : Coords) (tail : List Coords) : Coords

/-- A d3 projection object as used by the wrapper: callable forward and an
invert method. -/
structure Projection where
  forward : Pair → Pair
  invert : Pair → Pair

mutual

/-- projectCoords (lines 201-206): apply the forward projection at every
leaf pair, recursing through nested arrays via coords.map. -/
def projectCoords (proj : Projection) : Coords → Coords
  | .pair x y =>
      -- typeof coords[0] !== "object": a coordinate pair, apply proj(coords)
      let q := proj.forward (x, y)
      .pair q.1 q.2
  | .node c cs =>
      -- coords[0] is an array: coords.map(coord => projectCoords(coord, proj))
      .node (projectCoords proj c) (projectCoordsList proj cs)

/-- The coords.map of projectCoords over the remaining elements. -/
def projectCoordsList (proj : Projection) : List Coords → List Coords
  | [] => []
  | c :: cs => projectCoords proj c :: projectCoordsList proj cs

end

mutual

/-- unprojectCoords (lines 216-221): apply proj.invert at every leaf pair,
recursing through nested arrays via coords.map. -/
def unprojectCoords (proj : Projection) : Coords → Coords
  | .pair x y =>
      let q := proj.invert (x, y)
      .pair q.1 q.2
  | .node c cs =>
      .node (unprojectCoords proj c) (unprojectCoordsList proj cs)

/-- The coords.map of unprojectCoords over the remaining elements. -/
def unprojectCoordsList (proj : Projection) : List Coords → List Coords
  | [] => []
  | c :: cs => unprojectCoords proj c :: unprojectCoordsList proj cs

end

/-- coordsIsNaN (lines 188-191): descend the first element while it is an
array, then test the first number with isNaN. -/
def coordsIsNaN : Coords → Bool
  | .node c _ => coordsIsNaN c
  | .pair x _ => x.isNaN

mutual

/-- Claim-side description: the leaf-wise map of a function over a nested
coordinates array, keeping the nesting structure. -/
def mapLeaves (h : Pair → Pair) : Coords → Coords
  | .pair x y =>
      let q := h (x, y)
      .pair q.1 q.2
  | .node c cs => .node (mapLeaves h c) (mapLeavesList h cs)

/-- mapLeaves over a list of nested coordinate arrays. -/
def mapLeavesList (h : Pair → Pair) : List Coords → List Coords
  | [] => []
  | c :: cs => mapLeaves h c :: mapLeavesList h cs

end

/-- The bare nesting structure of a coordinates array: depth and the length
of every list, with the leaf values erased. -/
inductive CShape where
  | pairS : CShape
  | nodeS (head : CShape) (tail : List CShape) : CShape

mutual

/-- The nesting structure of a coordinates array. -/
def shape : Coords → CShape
  | .pair _ _ => .pairS
  | .node c cs => .nodeS (shape c) (shapeList cs)

/-- The nesting structures of a list of coordinate arrays. -/
def shapeList : List Coords → List CShape
  | [] => []
  | c :: cs => shape c :: shapeList cs

end

/-- Claim-side description: the first coordinate value reached by descending
first elements of a nested coordinates array. -/
def firstLeafValue : Coords → JSNum
  | .pair x _ => x
  | .node c _ => firstLeafValue c

mutual

theorem shape_mapLeaves (h : Pair → Pair) : ∀ c : Coords, shape (mapLeaves h c) = shape c
  | .pair _ _ => rfl
  | .node c cs => by
      simp only [mapLeaves, shape, shape_mapLeaves h c, shape_mapLeavesList h cs]

theorem shape_mapLeavesList (h : Pair → Pair) :
    ∀ cs : List Coords, shapeList (mapLeavesList h cs) = shapeList cs
  | [] => rfl
  | c :: cs => by
      simp only [mapLeavesList, shapeList, shape_mapLeaves h c, shape_mapLeavesList h cs]

end

mutual

theorem projectCoords_eq_mapLeaves (proj : Projection) :
    ∀ c : Coords, projectCoords proj c = mapLeaves proj.forward c
  | .pair _ _ => rfl
  | .node c cs => by
      simp only [projectCoords, mapLeaves, projectCoords_eq_mapLeaves proj c,
        projectCoordsList_eq_mapLeaves proj cs]

theorem projectCoordsList_eq_mapLeaves (proj : Projection) :
    ∀ cs : List Coords, projectCoordsList proj cs = mapLeavesList proj.forward cs
  | [] => rfl
  | c :: cs => by
      simp only [projectCoordsList, mapLeavesList, projectCoords_eq_mapLeaves proj c,
        projectCoordsList_eq_mapLeaves proj cs]

end

mutual

theorem unprojectCoords_eq_mapLeaves (proj : Projection) :
    ∀ c : Coords, unprojectCoords proj c = mapLeaves proj.invert c
  | .pair _ _ => rfl
  | .node c cs => by
      simp only [unprojectCoords, mapLeaves, unprojectCoords_eq_mapLeaves proj c,
        unprojectCoordsList_eq_mapLeaves proj cs]

theorem unprojectCoordsList_eq_mapLeaves (proj : Projection) :
    ∀ cs : List Coords, unprojectCoordsList proj cs = mapLeavesList proj.invert cs
  | [] => rfl
  | c :: cs => by
      simp only [unprojectCoordsList, mapLeavesList, unprojectCoords_eq_mapLeaves proj c,
        unprojectCoordsList_eq_mapLeaves proj cs]

end

mutual

theorem mapLeaves_mapLeaves (g f : Pair → Pair) :
    ∀ c : Coords, mapLeaves g (mapLeaves f c) = mapLeaves (fun p => g (f p)) c
  | .pair _ _ => rfl
  | .node c cs => by
      simp only [mapLeaves, mapLeaves_mapLeaves g f c, mapLeaves_mapLeavesList g f cs]

theorem mapLeaves_mapLeavesList (g f : Pair → Pair) :
    ∀ cs : List Coords,
      mapLeavesList g (mapLeavesList f cs) = mapLeavesList (fun p => g (f p)) cs
  | [] => rfl
  | c :: cs => by
      simp only [mapLeavesList, mapLeaves_mapLeaves g f c, mapLeaves_mapLeavesList g f cs]

end

mutual

theorem mapLeaves_id_of (h : Pair → Pair) (hid : ∀ p : Pair, h p = p) :
    ∀ c : Coords, mapLeaves h c = c
  | .pair x y => by simp only [mapLeaves, hid (x, y)]
  | .node c cs => by
      simp only [mapLeaves, mapLeaves_id_of h hid c, mapLeavesList_id_of h hid cs]

theorem mapLeavesList_id_of (h : Pair → Pair) (hid : ∀ p : Pair, h p = p) :
    ∀ cs : List Coords, mapLeavesList h cs = cs
  | [] => rfl
  | c :: cs => by
      simp only [mapLeavesList, mapLeaves_id_of h hid c, mapLeavesList_id_of h hid cs]

end

theorem coordsIsNaN_eq_firstLeaf : ∀ c : Coords, coordsIsNaN c = (firstLeafValue c).isNaN
  | .pair _ _ => rfl
  | .node c _ => coordsIsNaN_eq_firstLeaf c

/-- A GeoJSON geometry object: a primitive geometry with a type tag and a
coordinates array, or a GeometryCollection with member geometries. -/
inductive Geom where
  | prim (ty : String) (coordinates : Coords) : Geom
  | coll (geometries : List Geom) : Geom

/-- The value of a JS properties field: an object (possibly empty), null, or
absent.  GeoJSON allows an object or null; a bare geometry has no field. -/
inductive PropVal where
  | pobj (fields : List (String × JSVal)) : PropVal
  | pnull : PropVal
  | pundefined : PropVal
deriving DecidableEq

/-- The JS expression geojson.properties || \x7b\x7d (line 136): objects are
truthy, null and undefined are falsy and default to the empty object. -/
def jsPropsOr : PropVal → PropVal
  | .pobj fields => .pobj fields
  | .pnull => .pobj []
  | .pundefined => .pobj []

/-- A GeoJSON Feature: geometry plus properties. -/
structure Feature where
  geometry : Geom
  properties : PropVal

/-- A top-level input to buffer: a Feature, a FeatureCollection, or a bare
geometry object (whose .type the dispatch at lines 87-120 switches on). -/
inductive GeoJSON where
  | feat (f : Feature) : GeoJSON
  | featColl (features : List Feature) : GeoJSON
  | geo (g : Geom) : GeoJSON

/-- The value bufferFeature receives as its geojson argument.  Besides a
Feature or a bare geometry it can be the `helpers.feature` function object
itself, which is what the GeometryCollection branch of buffer (lines 90-98)
actually passes. -/
inductive JSArg where
  | featA (f : Feature) : JSArg
  | geomA (g : Geom) : JSArg
  | fnA : JSArg

/-- The output of a buffering step: a Feature (type, coordinates, properties)
or a FeatureCollection of buffered members. -/
inductive BFOut where
  | feat (ty : String) (coordinates : Coords) (properties : PropVal) : BFOut
  | coll (features : List BFOut) : BFOut

/-- The JSTS BufferParams set through the mutable setters at lines 161-164. -/
structure BufParams where
  quadrantSegments : JSNum
  endCapStyle : Nat
  joinStyle : Nat
  mitreLimit : JSNum

/-- The external collaborators of the wrapper, kept opaque:
turf center (line 231), the d3 azimuthal-equidistant projection constructed
from a rotation (lines 232-233), the unit conversion
radiansToLength(lengthToRadians(radius, units), "meters") (line 159), and
the JSTS GeoJSONReader / BufferOp / GeoJSONWriter pipeline (lines 157-167),
which maps a projected (type, coordinates) pair to a buffered one. -/
structure Externals where
  center : Geom → Pair
  geoAzimuthalEquidistant : Pair → Projection
  toMeters : JSVal → JSVal → JSNum
  jstsBuffer : BufParams → JSNum → String → Coords → String × Coords

/-- defineProjection (lines 230-234): rotate the azimuthal-equidistant
projection to the centroid of the input geometry. -/
def defineProjection (ext : Externals) (geojson : Geom) : Projection :=
  let coords := ext.center geojson
  let rotation := (jsNeg coords.1, jsNeg coords.2)
  ext.geoAzimuthalEquidistant rotation

/-- The validated configuration buffer builds in its local variables
(lines 44-84) before dispatching. -/
structure Config where
  units : JSVal
  steps : JSNum
  endCapStyle : Nat
  joinStyle : Nat
  mitreLimit : JSNum
deriving DecidableEq

/-- The endCapStyle switch (lines 54-66): map the style string to the JSTS
code or throw. -/
def capCode (v : JSVal) : Except String Nat :=
  if v = .vstr "round" then .ok 1
  else if v = .vstr "flat" then .ok 2
  else if v = .vstr "square" then .ok 3
  else .error "endCapStyle must be flat, round or square"

/-- The joinStyle switch (lines 67-79): map the style string to the JSTS
code or throw. -/
def joinCode (v : JSVal) : Except String Nat :=
  if v = .vstr "round" then .ok 1
  else if v = .vstr "mitre" then .ok 2
  else if v = .vstr "bevel" then .ok 3
  else .error "joinStyle must be round, mitre or bevel"

/-- An options object as read by buffer; absent fields are undefined.
The source's checks that geojson is truthy (line 51) and that options is an
object (line 52) always pass here because both are structured values by
construction. -/
structure Options where
  units : JSVal
  steps : JSVal
  endCapStyle : JSVal
  joinStyle : JSVal
  mitreLimit : JSVal
deriving DecidableEq

/-- An empty options object (every field absent). -/
def optsNone : Options :=
  ⟨.vundefined, .vundefined, .vundefined, .vundefined, .vundefined⟩

/-- The defaulting and validation prefix of buffer (lines 41-84), performed
before any dispatch: default falsy option fields, check typeof steps, map
the cap and join style strings, check typeof mitreLimit, reject an undefined
radius, reject non-positive steps. -/
def bufferValidate (options : Options) (radius : JSVal) : Except String Config :=
  let units := jsOr options.units (.vstr "kilometers")
  let steps := jsOr options.steps (.vnum (.num 8))
  let endCapStyle := jsOr options.endCapStyle (.vstr "round")
  let joinStyle := jsOr options.joinStyle (.vstr "round")
  let mitreLimit := jsOr options.mitreLimit (.vnum (.num 5))
  if !steps.isNumber then .error "steps must be a number"
  else
    match capCode endCapStyle with
    | .error e => .error e
    | .ok cap =>
      match joinCode joinStyle with
      | .error e => .error e
      | .ok join =>
        if !mitreLimit.isNumber then .error "mitreLimit must be a number"
        else if radius = .vundefined then .error "radius is required"
        else if (steps.asNum).jsLe (.num 0) then .error "steps must be greater than 0"
        else .ok ⟨units, steps.asNum, cap, join, mitreLimit.asNum⟩

mutual

/-- The body of bufferFeature after properties and geometry are extracted
(lines 136-178): recurse over a GeometryCollection geometry (lines 140-147,
each member passed as a bare geometry, so with empty properties), or project,
buffer through JSTS, drop the feature when the NaN probe fires (line 170),
and otherwise unproject and attach the properties.  It never throws. -/
def bufferGeomCore (ext : Externals) (properties : PropVal) (g : Geom) (radius units : JSVal)
    (steps : JSNum) (endCapStyle joinStyle : Nat) (mitreLimit : JSNum) : Option BFOut :=
  match g with
  | .coll gs =>
      -- lines 141-146: featureCollection of the recursive results,
      -- dropping falsy ones; the computed properties are not attached
      some (.coll (bufferGeomList ext gs radius units steps endCapStyle joinStyle mitreLimit))
  | .prim ty coordinates =>
      -- lines 150-154: project with a single projection instance
      let projection := defineProjection ext (.prim ty coordinates)
      let projected := projectCoords projection coordinates
      -- lines 157-167: JSTS buffer at the metric distance
      let distance := ext.toMeters radius units
      let buffered :=
        ext.jstsBuffer ⟨steps, endCapStyle, joinStyle, mitreLimit⟩ distance ty projected
      -- line 170: if (coordsIsNaN(buffered.coordinates)) return undefined
      if coordsIsNaN buffered.2 then none
      else
        -- lines 173-178: unproject with the same projection and tag properties
        some (.feat buffered.1 (unprojectCoords projection buffered.2) properties)

/-- The geomEach loop of bufferFeature's GeometryCollection branch
(lines 142-145): buffer each member geometry and keep the truthy results. -/
def bufferGeomList (ext : Externals) (gs : List Geom) (radius units : JSVal)
    (steps : JSNum) (endCapStyle joinStyle : Nat) (mitreLimit : JSNum) : List BFOut :=
  match gs with
  | [] => []
  | g :: rest =>
      (match bufferGeomCore ext (.pobj []) g radius units steps endCapStyle joinStyle
          mitreLimit with
       | some b => [b]
       | none => []) ++
        bufferGeomList ext rest radius units steps endCapStyle joinStyle mitreLimit

end

/-- bufferFeature (lines 135-179).  For a Feature the properties are
geojson.properties || \x7b\x7d and the geometry is geojson.geometry; for a bare
geometry the properties default to the empty object.  When the argument is
the `helpers.feature` function object (the value the buggy
GeometryCollection branch passes), properties become the empty object, the
"Feature" test fails, and defineProjection hands the function to
turf center, whose coordinate traversal throws "Unknown Geometry Type". -/
def bufferFeature (ext : Externals) (geojson : JSArg) (radius units : JSVal) (steps : JSNum)
    (endCapStyle joinStyle : Nat) (mitreLimit : JSNum) : Except String (Option BFOut) :=
  match geojson with
  | .fnA => .error "Unknown Geometry Type"
  | .featA f =>
      .ok (bufferGeomCore ext (jsPropsOr f.properties) f.geometry radius units steps
        endCapStyle joinStyle mitreLimit)
  | .geomA g =>
      .ok (bufferGeomCore ext (.pobj []) g radius units steps endCapStyle joinStyle
        mitreLimit)

/-- The featureEach flattening at lines 113-117: a falsy result is skipped,
a single buffered Feature contributes itself, and a FeatureCollection result
(from a member whose geometry was a GeometryCollection) contributes its
members. -/
def featureEachFlatten : Option BFOut → List BFOut
  | none => []
  | some (.feat ty c p) => [.feat ty c p]
  | some (.coll items) => items

/-- The geomEach loop of buffer's GeometryCollection branch (lines 88-100).
The callback discards its member-geometry argument and instead passes the
`helpers.feature` function itself to bufferFeature (line 91), so the first
member already makes the call throw. -/
def geomEachCollect (ext : Externals) (gs : List Geom) (radius : JSVal) (cfg : Config) :
    Except String (List BFOut) :=
  match gs with
  | [] => .ok []
  | _geometry :: rest =>
      match bufferFeature ext .fnA radius cfg.units cfg.steps cfg.endCapStyle cfg.joinStyle
          cfg.mitreLimit with
      | .error e => .error e
      | .ok buffered =>
          match geomEachCollect ext rest radius cfg with
          | .error e => .error e
          | .ok results =>
              .ok ((match buffered with
                    | some b => [b]
                    | none => []) ++ results)

/-- The featureEach loop of buffer's FeatureCollection branch
(lines 102-118): buffer each member feature and flatten the truthy results
in order. -/
def featureEachCollect (ext : Externals) (feats : List Feature) (radius : JSVal)
    (cfg : Config) : Except String (List BFOut) :=
  match feats with
  | [] => .ok []
  | f :: rest =>
      match bufferFeature ext (.featA f) radius cfg.units cfg.steps cfg.endCapStyle
          cfg.joinStyle cfg.mitreLimit with
      | .error e => .error e
      | .ok multiBuffered =>
          match featureEachCollect ext rest radius cfg with
          | .error e => .error e
          | .ok results => .ok (featureEachFlatten multiBuffered ++ results)

/-- buffer (lines 39-122): defaulting and validation, then dispatch on
geojson.type: GeometryCollection (lines 88-101), FeatureCollection
(lines 102-119), or a single Feature / bare geometry (line 121). -/
def buffer (ext : Externals) (geojson : GeoJSON) (radius : JSVal) (options : Options) :
    Except String (Option BFOut) :=
  match bufferValidate options radius with
  | .error e => .error e
  | .ok cfg =>
      match geojson with
      | .geo (.coll gs) =>
          match geomEachCollect ext gs radius cfg with
          | .error e => .error e
          | .ok results => .ok (some (.coll results))
      | .featColl feats =>
          match featureEachCollect ext feats radius cfg with
          | .error e => .error e
          | .ok results => .ok (some (.coll results))
      | .feat f =>
          bufferFeature ext (.featA f) radius cfg.units cfg.steps cfg.endCapStyle
            cfg.joinStyle cfg.mitreLimit
      | .geo g =>
          bufferFeature ext (.geomA g) radius cfg.units cfg.steps cfg.endCapStyle
            cfg.joinStyle cfg.mitreLimit

/-- State-threading translation of buffer: the pair of argument objects is
passed through every statement and returned alongside the result.  Every
assignment in the source writes a function-local variable (lines 41-48 and
the switch rebindings at lines 54-79), and the only object mutated is the
freshly constructed BufferOp (lines 160-164); no statement assigns a
property of geojson or of options, so the threaded objects are returned as
received. -/
def bufferFrame (ext : Externals) (geojson : GeoJSON) (radius : JSVal) (options : Options) :
    Except String (Option BFOut) × GeoJSON × Options :=
  let args := (geojson, options)
  let result :=
    match bufferValidate args.2 radius with
    | .error e => .error e
    | .ok cfg =>
        match args.1 with
        | .geo (.coll gs) =>
            match geomEachCollect ext gs radius cfg with
            | .error e => .error e
            | .ok results => .ok (some (.coll results))
        | .featColl feats =>
            match featureEachCollect ext feats radius cfg with
            | .error e => .error e
            | .ok results => .ok (some (.coll results))
        | .feat f =>
            bufferFeature ext (.featA f) radius cfg.units cfg.steps cfg.endCapStyle
              cfg.joinStyle cfg.mitreLimit
        | .geo g =>
            bufferFeature ext (.geomA g) radius cfg.units cfg.steps cfg.endCapStyle
              cfg.joinStyle cfg.mitreLimit
  (result, args.1, args.2)

/-- A concrete instantiation of the external collaborators used to evaluate
the embedding on closed inputs: centroid at the origin, the identity
projection, a zero metric distance and an identity JSTS buffer. -/
def trivialExt : Externals where
  center := fun _ => (.num 0, .num 0)
  geoAzimuthalEquidistant := fun _ => ⟨fun p => p, fun p => p⟩
  toMeters := fun _ _ => .num 0
  jstsBuffer := fun _ _ ty c => (ty, c)

/-- bufferValidate with its local let-bindings expanded. -/
theorem bufferValidate_unfold (options : Options) (radius : JSVal) :
    bufferValidate options radius =
      (if !(jsOr options.steps (.vnum (.num 8))).isNumber then .error "steps must be a number"
       else
         match capCode (jsOr options.endCapStyle (.vstr "round")) with
         | .error e => .error e
         | .ok cap =>
           match joinCode (jsOr options.joinStyle (.vstr "round")) with
           | .error e => .error e
           | .ok join =>
             if !(jsOr options.mitreLimit (.vnum (.num 5))).isNumber then
               .error "mitreLimit must be a number"
             else if radius = .vundefined then .error "radius is required"
             else if (jsOr options.steps (.vnum (.num 8))).asNum.jsLe (.num 0) then
               .error "steps must be greater than 0"
             else
               .ok ⟨jsOr options.units (.vstr "kilometers"),
                 (jsOr options.steps (.vnum (.num 8))).asNum, cap, join,
                 (jsOr options.mitreLimit (.vnum (.num 5))).asNum⟩) := rfl

/-- capCode returns its unique error message exactly on strings outside the
cap style set. -/
theorem capCode_error_iff (v : JSVal) (e : String) :
    capCode v = .error e ↔
      (e = "endCapStyle must be flat, round or square" ∧
        v ≠ .vstr "round" ∧ v ≠ .vstr "flat" ∧ v ≠ .vstr "square") := by
  unfold capCode
  split_ifs with h1 h2 h3 <;> simp_all <;> tauto

/-- capCode succeeds exactly on the three cap style strings. -/
theorem capCode_ok_iff (v : JSVal) (n : Nat) :
    capCode v = .ok n ↔
      ((v = .vstr "round" ∧ n = 1) ∨ (v = .vstr "flat" ∧ n = 2) ∨
        (v = .vstr "square" ∧ n = 3)) := by
  unfold capCode
  split_ifs with h1 h2 h3 <;> simp_all <;> tauto

/-- joinCode returns its unique error message exactly on strings outside the
join style set. -/
theorem joinCode_error_iff (v : JSVal) (e : String) :
    joinCode v = .error e ↔
      (e = "joinStyle must be round, mitre or bevel" ∧
        v ≠ .vstr "round" ∧ v ≠ .vstr "mitre" ∧ v ≠ .vstr "bevel") := by
  unfold joinCode
  split_ifs with h1 h2 h3 <;> simp_all <;> tauto

/-- joinCode succeeds exactly on the three join style strings. -/
theorem joinCode_ok_iff (v : JSVal) (n : Nat) :
    joinCode v = .ok n ↔
      ((v = .vstr "round" ∧ n = 1) ∨ (v = .vstr "mitre" ∧ n = 2) ∨
        (v = .vstr "bevel" ∧ n = 3)) := by
  unfold joinCode
  split_ifs with h1 h2 h3 <;> simp_all <;> tauto

/-- bufferValidate after the typeof-steps check has passed. -/
theorem bufferValidate_steps_ok (options : Options) (radius : JSVal)
    (hs : (jsOr options.steps (.vnum (.num 8))).isNumber = true) :
    bufferValidate options radius =
      (match capCode (jsOr options.endCapStyle (.vstr "round")) with
       | .error e => .error e
       | .ok cap =>
         match joinCode (jsOr options.joinStyle (.vstr "round")) with
         | .error e => .error e
         | .ok join =>
           if !(jsOr options.mitreLimit (.vnum (.num 5))).isNumber then
             .error "mitreLimit must be a number"
           else if radius = .vundefined then .error "radius is required"
           else if (jsOr options.steps (.vnum (.num 8))).asNum.jsLe (.num 0) then
             .error "steps must be greater than 0"
           else
             .ok ⟨jsOr options.units (.vstr "kilometers"),
               (jsOr options.steps (.vnum (.num 8))).asNum, cap, join,
               (jsOr options.mitreLimit (.vnum (.num 5))).asNum⟩) := by
  rw [bufferValidate_unfold, hs]
  rfl

/-- bufferValidate after the typeof-steps check and both style switches have
passed. -/
theorem bufferValidate_eval (options : Options) (radius : JSVal) (cap join : Nat)
    (hs : (jsOr options.steps (.vnum (.num 8))).isNumber = true)
    (hc : capCode (jsOr options.endCapStyle (.vstr "round")) = .ok cap)
    (hj : joinCode (jsOr options.joinStyle (.vstr "round")) = .ok join) :
    bufferValidate options radius =
      (if !(jsOr options.mitreLimit (.vnum (.num 5))).isNumber then
         .error "mitreLimit must be a number"
       else if radius = .vundefined then .error "radius is required"
       else if (jsOr options.steps (.vnum (.num 8))).asNum.jsLe (.num 0) then
         .error "steps must be greater than 0"
       else
         .ok ⟨jsOr options.units (.vstr "kilometers"),
           (jsOr options.steps (.vnum (.num 8))).asNum, cap, join,
           (jsOr options.mitreLimit (.vnum (.num 5))).asNum⟩) := by
  rw [bufferValidate_steps_ok options radius hs, hc, hj]

/-- Claim C3 (corrected; the original iff over all present values fails on
falsy present values such as the empty string): with a numeric effective
steps value, buffer throws the endCapStyle error iff the defaulted
endCapStyle value (the option value when truthy, else "round") is outside
the cap style set, throws the joinStyle error iff the defaulted cap style
is valid and the defaulted joinStyle value is outside the join style set,
an absent style option falls back to "round", and a validation error is
raised by buffer itself before any buffering is performed. -/
theorem C3_style_validation (opts : Options) (radius : JSVal)
    (hsteps : (jsOr opts.steps (.vnum (.num 8))).isNumber = true) :
    (bufferValidate opts radius = .error "endCapStyle must be flat, round or square" ↔
      (jsOr opts.endCapStyle (.vstr "round") ≠ .vstr "round" ∧
       jsOr opts.endCapStyle (.vstr "round") ≠ .vstr "flat" ∧
       jsOr opts.endCapStyle (.vstr "round") ≠ .vstr "square")) ∧
    (bufferValidate opts radius = .error "joinStyle must be round, mitre or bevel" ↔
      ((jsOr opts.endCapStyle (.vstr "round") = .vstr "round" ∨
        jsOr opts.endCapStyle (.vstr "round") = .vstr "flat" ∨
        jsOr opts.endCapStyle (.vstr "round") = .vstr "square") ∧
       jsOr opts.joinStyle (.vstr "round") ≠ .vstr "round" ∧
       jsOr opts.joinStyle (.vstr "round") ≠ .vstr "mitre" ∧
       jsOr opts.joinStyle (.vstr "round") ≠ .vstr "bevel")) ∧
    (opts.endCapStyle = .vundefined → jsOr opts.endCapStyle (.vstr "round") = .vstr "round") ∧
    (opts.joinStyle = .vundefined → jsOr opts.joinStyle (.vstr "round") = .vstr "round") ∧
    (∀ (ext : Externals) (g : GeoJSON) (e : String),
      bufferValidate opts radius = .error e → buffer ext g radius opts = .error e) := by
  refine ⟨?_, ?_, ?_, ?_, ?_⟩
  · constructor
    · intro h
      rw [bufferValidate_steps_ok opts radius hsteps] at h
      cases hcap : capCode (jsOr opts.endCapStyle (.vstr "round")) with
      | error e =>
          exact ((capCode_error_iff _ _).mp hcap).2
      | ok cap =>
          rw [hcap] at h
          cases hjoin : joinCode (jsOr opts.joinStyle (.vstr "round")) with
          | error e =>
              rw [hjoin] at h
              have he := ((joinCode_error_iff _ _).mp hjoin).1
              simp only [Except.error.injEq] at h
              rw [he] at h
              exact absurd h (by decide)
          | ok join =>
              rw [hjoin] at h
              split_ifs at h <;> simp_all
    · intro hcond
      have hcap : capCode (jsOr opts.endCapStyle (.vstr "round")) =
          .error "endCapStyle must be flat, round or square" :=
        (capCode_error_iff _ _).mpr ⟨rfl, hcond.1, hcond.2.1, hcond.2.2⟩
      rw [bufferValidate_steps_ok opts radius hsteps, hcap]
  · constructor
    · intro h
      rw [bufferValidate_steps_ok opts radius hsteps] at h
      cases hcap : capCode (jsOr opts.endCapStyle (.vstr "round")) with
      | error e =>
          rw [hcap] at h
          have he := ((capCode_error_iff _ _).mp hcap).1
          simp only [Except.error.injEq] at h
          rw [he] at h
          exact absurd h (by decide)
      | ok cap =>
          rw [hcap] at h
          have hcapset := (capCode_ok_iff _ _).mp hcap
          cases hjoin : joinCode (jsOr opts.joinStyle (.vstr "round")) with
          | error e =>
              refine ⟨?_, ((joinCode_error_iff _ _).mp hjoin).2⟩
              rcases hcapset with ⟨h1, _⟩ | ⟨h1, _⟩ | ⟨h1, _⟩
              · exact Or.inl h1
              · exact Or.inr (Or.inl h1)
              · exact Or.inr (Or.inr h1)
          | ok join =>
              rw [hjoin] at h
              split_ifs at h <;> simp_all
    · intro hcond
      obtain ⟨hset, hj1, hj2, hj3⟩ := hcond
      have hjoin : joinCode (jsOr opts.joinStyle (.vstr "round")) =
          .error "joinStyle must be round, mitre or bevel" :=
        (joinCode_error_iff _ _).mpr ⟨rfl, hj1, hj2, hj3⟩
      have hcap : ∃ n, capCode (jsOr opts.endCapStyle (.vstr "round")) = .ok n := by
        rcases hset with h1 | h1 | h1
        · exact ⟨1, (capCode_ok_iff _ _).mpr (Or.inl ⟨h1, rfl⟩)⟩
        · exact ⟨2, (capCode_ok_iff _ _).mpr (Or.inr (Or.inl ⟨h1, rfl⟩))⟩
        · exact ⟨3, (capCode_ok_iff _ _).mpr (Or.inr (Or.inr ⟨h1, rfl⟩))⟩
      obtain ⟨n, hcap⟩ := hcap
      rw [bufferValidate_steps_ok opts radius hsteps, hcap, hjoin]
  · intro h
    rw [h]
    rfl
  · intro h
    rw [h]
    rfl
  · intro ext g e h
    unfold buffer
    rw [h]

/-- Witness for C3 at concrete inputs: an unrecognized truthy endCapStyle
string is rejected with the endCapStyle error. -/
theorem C3_style_validation_witness :
    bufferValidate ⟨.vundefined, .vundefined, .vstr "butt", .vundefined, .vundefined⟩
        (.vnum (.num 1)) = .error "endCapStyle must be flat, round or square" :=
  ((C3_style_validation ⟨.vundefined, .vundefined, .vstr "butt", .vundefined, .vundefined⟩
    (.vnum (.num 1)) rfl).1).mpr (by decide)

/-- Counterexample for C3 as stated: the empty string is a present,
unrecognized endCapStyle value, yet buffer does not throw; the falsy value
falls back to "round" (code 1) and validation succeeds. -/
theorem C3_counterexample_empty_string :
    bufferValidate ⟨.vundefined, .vundefined, .vstr "", .vundefined, .vundefined⟩
        (.vnum (.num 1)) =
      .ok ⟨.vstr "kilometers", .num 8, 1, 1, .num 5⟩ := rfl

/-- Claim C4 (corrected; the code has no mitreLimit > 0 check): once the
earlier checks pass, buffer throws the mitreLimit error iff the defaulted
mitreLimit value is not a number, and any numeric defaulted value — in
particular a negative one — flows unchanged into the configuration used for
buffering. -/
theorem C4_mitreLimit_validation (opts : Options) (radius : JSVal) (cap join : Nat)
    (hsteps : (jsOr opts.steps (.vnum (.num 8))).isNumber = true)
    (hcap : capCode (jsOr opts.endCapStyle (.vstr "round")) = .ok cap)
    (hjoin : joinCode (jsOr opts.joinStyle (.vstr "round")) = .ok join) :
    (bufferValidate opts radius = .error "mitreLimit must be a number" ↔
      (jsOr opts.mitreLimit (.vnum (.num 5))).isNumber = false) ∧
    (∀ cfg : Config, bufferValidate opts radius = .ok cfg →
      cfg.mitreLimit = (jsOr opts.mitreLimit (.vnum (.num 5))).asNum) := by
  have he := bufferValidate_eval opts radius cap join hsteps hcap hjoin
  constructor
  · rw [he]
    cases hm : (jsOr opts.mitreLimit (.vnum (.num 5))).isNumber
    · simp [hm]
    · simp only [hm, Bool.not_true, Bool.false_eq_true, if_false]
      split_ifs <;> simp_all
  · intro cfg hcfg
    rw [he] at hcfg
    split_ifs at hcfg <;> simp_all
    rw [← hcfg]

/-- Witness for C4 at concrete inputs: a truthy non-number mitreLimit is
rejected, while a negative mitreLimit passes validation and reaches the
configuration unchanged. -/
theorem C4_mitreLimit_validation_witness :
    bufferValidate ⟨.vundefined, .vundefined, .vundefined, .vundefined, .vstr "big"⟩
        (.vnum (.num 1)) = .error "mitreLimit must be a number" ∧
    (⟨.vstr "kilometers", .num 8, 1, 1, .num (-1)⟩ : Config).mitreLimit = .num (-1) := by
  constructor
  · exact ((C4_mitreLimit_validation
      ⟨.vundefined, .vundefined, .vundefined, .vundefined, .vstr "big"⟩
      (.vnum (.num 1)) 1 1 rfl rfl rfl).1).mpr rfl
  · exact ((C4_mitreLimit_validation
      ⟨.vundefined, .vundefined, .vundefined, .vundefined, .vnum (.num (-1))⟩
      (.vnum (.num 1)) 1 1 rfl rfl rfl).2 ⟨.vstr "kilometers", .num 8, 1, 1, .num (-1)⟩ rfl)

/-- Counterexample for C4 as stated: with mitreLimit = -1, a number that is
not greater than 0, buffer performs the buffering instead of failing
parameter validation. -/
theorem C4_counterexample_negative_mitreLimit :
    buffer trivialExt (.geo (.prim "Point" (.pair (.num 1) (.num 2)))) (.vnum (.num 1))
        ⟨.vundefined, .vundefined, .vundefined, .vundefined, .vnum (.num (-1))⟩ =
      .ok (some (.feat "Point" (.pair (.num 1) (.num 2)) (.pobj []))) := rfl

/-- A value satisfying the typeof number check is a number value. -/
theorem isNumber_exists (v : JSVal) (h : v.isNumber = true) : ∃ n, v = .vnum n := by
  cases v
  case vnum n => exact ⟨n, rfl⟩
  all_goals simp [JSVal.isNumber] at h

/-- Claim C8: a falsy steps option (0) is replaced by the default 8 before
validation and does not trigger the positive-steps error, a falsy
mitreLimit option (0) is replaced by 5.0, and the "steps must be greater
than 0" error can only arise from a negative numeric steps option. -/
theorem C8_falsy_numeric_defaults :
    bufferValidate ⟨.vundefined, .vnum (.num 0), .vundefined, .vundefined, .vundefined⟩
        (.vnum (.num 1)) = .ok ⟨.vstr "kilometers", .num 8, 1, 1, .num 5⟩ ∧
    bufferValidate ⟨.vundefined, .vundefined, .vundefined, .vundefined, .vnum (.num 0)⟩
        (.vnum (.num 1)) = .ok ⟨.vstr "kilometers", .num 8, 1, 1, .num 5⟩ ∧
    ∀ (opts : Options) (r : JSVal),
      bufferValidate opts r = .error "steps must be greater than 0" →
        ∃ q : ℚ, q < 0 ∧ opts.steps = .vnum (.num q) := by
  refine ⟨rfl, rfl, ?_⟩
  intro opts r h
  cases hsn : (jsOr opts.steps (.vnum (.num 8))).isNumber with
  | false =>
      rw [bufferValidate_unfold, hsn] at h
      simp at h
  | true =>
      cases hcap : capCode (jsOr opts.endCapStyle (.vstr "round")) with
      | error e =>
          rw [bufferValidate_steps_ok opts r hsn, hcap] at h
          have he := ((capCode_error_iff _ _).mp hcap).1
          simp only [Except.error.injEq] at h
          rw [he] at h
          exact absurd h (by decide)
      | ok cap =>
          cases hjoin : joinCode (jsOr opts.joinStyle (.vstr "round")) with
          | error e =>
              rw [bufferValidate_steps_ok opts r hsn, hcap, hjoin] at h
              have he := ((joinCode_error_iff _ _).mp hjoin).1
              simp only [Except.error.injEq] at h
              rw [he] at h
              exact absurd h (by decide)
          | ok join =>
              rw [bufferValidate_eval opts r cap join hsn hcap hjoin] at h
              split_ifs at h with hm hr hle <;> try simp at h
              -- only the branch with hle (the defaulted steps compares ≤ 0) survives
              by_cases htr : (opts.steps).truthy = true
              · have hjs : jsOr opts.steps (.vnum (.num 8)) = opts.steps := by
                  simp [jsOr, htr]
                rw [hjs] at hsn hle
                obtain ⟨n, hn⟩ := isNumber_exists _ hsn
                rw [hn] at htr hle
                rcases n with q | _
                · refine ⟨q, ?_, hn⟩
                  have hq0 : q ≠ 0 := by
                    simpa [JSVal.truthy, JSNum.truthy] using htr
                  have hq : q ≤ 0 := by
                    simpa [JSVal.asNum, JSNum.jsLe] using hle
                  exact lt_of_le_of_ne hq hq0
                · simp [JSVal.truthy, JSNum.truthy] at htr
              · have hf : (opts.steps).truthy = false := by
                  revert htr
                  cases (opts.steps).truthy <;> simp
                have hjs : jsOr opts.steps (.vnum (.num 8)) = .vnum (.num 8) := by
                  simp [jsOr, hf]
                rw [hjs] at hle
                have : ((8 : ℚ) ≤ 0) := by
                  simpa [JSVal.asNum, JSNum.jsLe] using hle
                norm_num at this

/-- Witness for C8 at a concrete input: steps = -1 triggers the
positive-steps error, and the claim recovers the negative witness. -/
theorem C8_falsy_numeric_defaults_witness :
    ∃ q : ℚ, q < 0 ∧
      (Options.steps ⟨.vundefined, .vnum (.num (-1)), .vundefined, .vundefined,
        .vundefined⟩) = .vnum (.num q) :=
  C8_falsy_numeric_defaults.2.2
    ⟨.vundefined, .vnum (.num (-1)), .vundefined, .vundefined, .vundefined⟩
    (.vnum (.num 1)) rfl

/-- Claim C6: projectCoords applies the forward projection at every leaf of
an arbitrarily nested coordinates array preserving the nesting structure,
unprojectCoords does the same with the inverse transform of the same
projection instance, and their composition applies inverse-after-forward at
every leaf while leaving the structure unchanged. -/
theorem C6_project_unproject (proj : Projection) (c : Coords) :
    shape (projectCoords proj c) = shape c ∧
    shape (unprojectCoords proj c) = shape c ∧
    unprojectCoords proj (projectCoords proj c) =
      mapLeaves (fun p => proj.invert (proj.forward p)) c ∧
    shape (unprojectCoords proj (projectCoords proj c)) = shape c := by
  refine ⟨?_, ?_, ?_, ?_⟩
  · rw [projectCoords_eq_mapLeaves, shape_mapLeaves]
  · rw [unprojectCoords_eq_mapLeaves, shape_mapLeaves]
  · rw [projectCoords_eq_mapLeaves, unprojectCoords_eq_mapLeaves, mapLeaves_mapLeaves]
  · rw [unprojectCoords_eq_mapLeaves, shape_mapLeaves, projectCoords_eq_mapLeaves,
      shape_mapLeaves]

/-- Claim C9: for a primitive geometry, the per-feature buffering step drops
the feature (returns undefined) iff the first coordinate value reached by
descending first elements of the JSTS output is NaN; otherwise the whole
output coordinate array — NaN values at other positions included — is
unprojected and returned with the properties attached. -/
theorem C9_nan_probe_first_leaf (ext : Externals) (props : PropVal) (ty : String)
    (c : Coords) (radius units : JSVal) (steps : JSNum) (cap join : Nat) (mitre : JSNum) :
    bufferGeomCore ext props (.prim ty c) radius units steps cap join mitre =
      (let projection := defineProjection ext (.prim ty c)
       let buffered := ext.jstsBuffer ⟨steps, cap, join, mitre⟩ (ext.toMeters radius units)
         ty (projectCoords projection c)
       if (firstLeafValue buffered.2).isNaN then none
       else some (.feat buffered.1 (unprojectCoords projection buffered.2) props)) := by
  rw [bufferGeomCore, coordsIsNaN_eq_firstLeaf]

/-- Claim C7: buffer does not mutate its arguments; the state-threading
translation returns the geojson and options objects exactly as they were
received, together with the same result the direct embedding computes. -/
theorem C7_no_argument_mutation (ext : Externals) (geojson : GeoJSON) (radius : JSVal)
    (options : Options) :
    bufferFrame ext geojson radius options = (buffer ext geojson radius options,
      geojson, options) := rfl

/-- Whenever the per-geometry buffering step returns a single Feature, that
feature carries exactly the properties value the step was given. -/
theorem bufferGeomCore_feat_props {ext : Externals} {props : PropVal} {g : Geom}
    {radius units : JSVal} {steps : JSNum} {cap join : Nat} {mitre : JSNum}
    {ty : String} {c : Coords} {p : PropVal}
    (h : bufferGeomCore ext props g radius units steps cap join mitre =
      some (.feat ty c p)) :
    props = p := by
  cases g with
  | coll gs => simp [bufferGeomCore] at h
  | prim ty0 c0 =>
      simp only [bufferGeomCore] at h
      split_ifs at h
      simp at h
      exact h.2.2

/-- Claim C10 (corrected; a Feature with null properties gets a fresh empty
object rather than its own null): a buffered Feature output carries
geojson.properties || \x7b\x7d — the feature's own properties object whenever it
is an object, the empty object when it is null — and a bare geometry input
yields empty properties. -/
theorem C10_properties (ext : Externals) (f : Feature) (g : Geom) (radius units : JSVal)
    (steps : JSNum) (cap join : Nat) (mitre : JSNum) (ty ty2 : String) (c c2 : Coords)
    (p p2 : PropVal)
    (hf : bufferFeature ext (.featA f) radius units steps cap join mitre =
      .ok (some (.feat ty c p)))
    (hg : bufferFeature ext (.geomA g) radius units steps cap join mitre =
      .ok (some (.feat ty2 c2 p2))) :
    p = jsPropsOr f.properties ∧ p2 = .pobj [] := by
  constructor
  · simp only [bufferFeature, Except.ok.injEq] at hf
    exact (bufferGeomCore_feat_props hf).symm
  · simp only [bufferFeature, Except.ok.injEq] at hg
    exact (bufferGeomCore_feat_props hg).symm

/-- Witness for C10: a Feature with a nonempty properties object keeps it,
and a bare geometry gets the empty object. -/
theorem C10_properties_witness :
    (PropVal.pobj [("name", .vstr "x")]) =
      jsPropsOr (.pobj [("name", .vstr "x")]) ∧ (PropVal.pobj [] : PropVal) = .pobj [] :=
  C10_properties trivialExt
    ⟨.prim "Point" (.pair (.num 1) (.num 2)), .pobj [("name", .vstr "x")]⟩
    (.prim "Point" (.pair (.num 3) (.num 4))) (.vnum (.num 1)) (.vstr "kilometers")
    (.num 8) 1 1 (.num 5) "Point" "Point" (.pair (.num 1) (.num 2))
    (.pair (.num 3) (.num 4)) (.pobj [("name", .vstr "x")]) (.pobj []) rfl rfl

/-- Counterexample for C10 as stated: a Feature whose properties field is
null (a legal GeoJSON properties value) does not keep it; the returned
feature carries a fresh empty object instead. -/
theorem C10_counterexample_null_properties :
    bufferFeature trivialExt (.featA ⟨.prim "Point" (.pair (.num 1) (.num 2)), .pnull⟩)
        (.vnum (.num 1)) (.vstr "kilometers") (.num 8) 1 1 (.num 5) =
      .ok (some (.feat "Point" (.pair (.num 1) (.num 2)) (.pobj []))) := rfl

/-- Claim C2 (the code is wrong here): buffering a GeometryCollection never
buffers the member geometries, because the callback at lines 90-98 passes
the helpers.feature function itself instead of the member; already for a
collection holding a single Point the call throws instead of returning a
FeatureCollection of buffered members. -/
theorem C2_geometryCollection_member_ignored :
    buffer trivialExt (.geo (.coll [.prim "Point" (.pair (.num 3) (.num 4))]))
        (.vnum (.num 1)) optsNone = .error "Unknown Geometry Type" := rfl

/-- The FeatureCollection loop processes the members independently: it
equals the flat map of the per-feature buffering step over the members, in
order, and never produces an error. -/
theorem featureEachCollect_flatMap (ext : Externals) (feats : List Feature) (radius : JSVal)
    (cfg : Config) :
    featureEachCollect ext feats radius cfg =
      .ok (feats.flatMap (fun f =>
        featureEachFlatten (bufferGeomCore ext (jsPropsOr f.properties) f.geometry radius
          cfg.units cfg.steps cfg.endCapStyle cfg.joinStyle cfg.mitreLimit))) := by
  induction feats with
  | nil => rfl
  | cons f rest ih =>
      rw [featureEachCollect, bufferFeature, ih, List.flatMap_cons]

/-- Claim C1: for a FeatureCollection input with validated options, buffer
processes each member feature independently through the per-feature
buffering step and returns (without error) a FeatureCollection holding
exactly the non-degenerate buffered results in input order; degenerate
members contribute nothing. -/
theorem C1_featureCollection_independent (ext : Externals) (feats : List Feature)
    (radius : JSVal) (opts : Options) (cfg : Config)
    (h : bufferValidate opts radius = .ok cfg) :
    buffer ext (.featColl feats) radius opts =
      .ok (some (.coll (feats.flatMap (fun f =>
        featureEachFlatten (bufferGeomCore ext (jsPropsOr f.properties) f.geometry radius
          cfg.units cfg.steps cfg.endCapStyle cfg.joinStyle cfg.mitreLimit))))) := by
  unfold buffer
  rw [h]
  simp only [featureEachCollect_flatMap]

/-- Witness for C1 at concrete inputs: of two point features, the one whose
buffered result starts with NaN is silently dropped and the other is kept,
with no error. -/
theorem C1_featureCollection_independent_witness :
    buffer trivialExt (.featColl
        [⟨.prim "Point" (.pair (.num 1) (.num 2)), .pobj []⟩,
         ⟨.prim "Point" (.pair .nan (.num 0)), .pobj []⟩]) (.vnum (.num 1)) optsNone =
      .ok (some (.coll [.feat "Point" (.pair (.num 1) (.num 2)) (.pobj [])])) := by
  have h := C1_featureCollection_independent trivialExt
    [⟨.prim "Point" (.pair (.num 1) (.num 2)), .pobj []⟩,
     ⟨.prim "Point" (.pair .nan (.num 0)), .pobj []⟩] (.vnum (.num 1)) optsNone
    ⟨.vstr "kilometers", .num 8, 1, 1, .num 5⟩ rfl
  exact h.trans rfl

/-- Claim C5 (the code is wrong on GeometryCollection inputs): with the
zero-distance behavior of the delegated buffer modelled from the spec (a
zero-distance buffer returns its input unchanged) and an exact projection
inverse, buffer at radius 0 succeeds on a primitive geometry and returns
the geometry unchanged, and only an undefined radius is rejected by
validation; but a nonempty GeometryCollection input still throws, for every
radius, because of the helpers.feature slip in the collection branch. -/
theorem C5_zero_radius (ext : Externals) (opts : Options) (cfg : Config) (ty : String)
    (c : Coords) (g : Geom)
    (hv : bufferValidate opts (.vnum (.num 0)) = .ok cfg)
    (hm : ext.toMeters (.vnum (.num 0)) cfg.units = .num 0)
    (hz : ∀ (p : BufParams) (ty2 : String) (c2 : Coords),
      ext.jstsBuffer p (.num 0) ty2 c2 = (ty2, c2))
    (hinv : ∀ (rot q : Pair),
      (ext.geoAzimuthalEquidistant rot).invert
        ((ext.geoAzimuthalEquidistant rot).forward q) = q)
    (hn : coordsIsNaN (projectCoords (defineProjection ext (.prim ty c)) c) = false) :
    buffer ext (.geo (.prim ty c)) (.vnum (.num 0)) opts =
      .ok (some (.feat ty c (.pobj []))) ∧
    bufferValidate opts .vundefined = .error "radius is required" ∧
    buffer ext (.geo (.coll [g])) (.vnum (.num 0)) opts = .error "Unknown Geometry Type" := by
  refine ⟨?_, ?_, ?_⟩
  · have hroundtrip :
        unprojectCoords (defineProjection ext (.prim ty c))
          (projectCoords (defineProjection ext (.prim ty c)) c) = c := by
      rw [projectCoords_eq_mapLeaves, unprojectCoords_eq_mapLeaves, mapLeaves_mapLeaves]
      apply mapLeaves_id_of
      intro p
      unfold defineProjection
      exact hinv _ p
    unfold buffer
    rw [hv]
    simp only [bufferFeature, bufferGeomCore, hm, hz, hn, Bool.false_eq_true, if_false]
    rw [hroundtrip]
  · have hsn : (jsOr opts.steps (.vnum (.num 8))).isNumber = true := by
      cases hsn : (jsOr opts.steps (.vnum (.num 8))).isNumber with
      | true => rfl
      | false =>
          rw [bufferValidate_unfold, hsn] at hv
          simp at hv
    obtain ⟨cap, hcap⟩ : ∃ n, capCode (jsOr opts.endCapStyle (.vstr "round")) = .ok n := by
      cases hcap : capCode (jsOr opts.endCapStyle (.vstr "round")) with
      | ok n => exact ⟨n, rfl⟩
      | error e =>
          rw [bufferValidate_steps_ok opts _ hsn, hcap] at hv
          simp at hv
    obtain ⟨join, hjoin⟩ :
        ∃ n, joinCode (jsOr opts.joinStyle (.vstr "round")) = .ok n := by
      cases hjoin : joinCode (jsOr opts.joinStyle (.vstr "round")) with
      | ok n => exact ⟨n, rfl⟩
      | error e =>
          rw [bufferValidate_steps_ok opts _ hsn, hcap, hjoin] at hv
          simp at hv
    have hmn : (jsOr opts.mitreLimit (.vnum (.num 5))).isNumber = true := by
      cases hmn : (jsOr opts.mitreLimit (.vnum (.num 5))).isNumber with
      | true => rfl
      | false =>
          rw [bufferValidate_eval opts _ cap join hsn hcap hjoin, hmn] at hv
          simp at hv
    rw [bufferValidate_eval opts .vundefined cap join hsn hcap hjoin, hmn]
    simp
  · unfold buffer
    rw [hv]
    rfl

/-- Witness for C5 at concrete inputs: a zero-radius buffer of a polygon
returns it unchanged, an undefined radius is rejected, and a one-member
GeometryCollection throws. -/
theorem C5_zero_radius_witness :
    buffer trivialExt (.geo (.prim "Polygon"
        (.node (.node (.pair (.num 1) (.num 2))
          [.pair (.num 3) (.num 4), .pair (.num 1) (.num 2)]) []))) (.vnum (.num 0))
        optsNone =
      .ok (some (.feat "Polygon"
        (.node (.node (.pair (.num 1) (.num 2))
          [.pair (.num 3) (.num 4), .pair (.num 1) (.num 2)]) []) (.pobj []))) ∧
    bufferValidate optsNone .vundefined = .error "radius is required" ∧
    buffer trivialExt (.geo (.coll [.prim "Point" (.pair (.num 9) (.num 9))]))
        (.vnum (.num 0)) optsNone = .error "Unknown Geometry Type" :=
  C5_zero_radius trivialExt optsNone ⟨.vstr "kilometers", .num 8, 1, 1, .num 5⟩ "Polygon"
    (.node (.node (.pair (.num 1) (.num 2))
      [.pair (.num 3) (.num 4), .pair (.num 1) (.num 2)]) [])
    (.prim "Point" (.pair (.num 9) (.num 9)))
    rfl rfl (fun _ _ _ => rfl) (fun _ _ => rfl) rfl

end GliTurfBuffer
